import Mathlib

/-!
Shallow embedding of the frame-processing and statistics pipeline of
`src/app.py` (a Gradio + YOLO webcam demo): the per-frame controller
`yolo_detect`, the chart renderer `generate_stats_chart`, and the
`reset_stats` operation, together with theorems about their behaviour.

Modelling conventions:
* A `collections.Counter` over category labels is an association list in
  insertion order; `Tally.get` is the zero-defaulting lookup and
  `Tally.incr` is `counter[key] += n` (update in place if the key is
  present, keeping its position, else append) — exactly the semantics of
  a Python dict/Counter.
* Python exceptions are `Except`: a function that may raise returns
  `Except ε α`, and a `try/except` is a `match` on that value.
* External collaborators (the YOLO model call, matplotlib) enter through
  an environment record per call: `FrameEnv.dets` is the outcome of
  `model(img, conf=0.4, verbose=False)[0]` (`.error` = the call raised,
  `.ok boxes` = the per-box data the drawing loop consumes) and
  `FrameEnv.renderFail` says whether matplotlib raises inside the body of
  `generate_stats_chart`.
* Images are modelled by their provenance: `OutImg` for the values that
  can appear in the annotated-frame output slot, `ChartImg` for the
  values that `generate_stats_chart` can return.  Only two facts about
  the underlying NumPy arrays matter to control flow: the chart images
  have more than one element (so Python truth-testing them raises
  `ValueError`), and `cv2.cvtColor` round-trips preserve pixels while
  producing a fresh array.
-/

namespace YoloApp

/-- Category label of a detection (a YOLO class name such as "person"). -/
abbrev Category := String

/-- A `collections.Counter` mapping category to count, kept as an
association list in insertion order with pairwise distinct keys
(maintained by `Tally.incr`). -/
abbrev Tally := List (Category × Nat)

/-- Zero-defaulting lookup, `counter[c]` of a Python `Counter`. -/
def Tally.get : Tally → Category → Nat
  | [], _ => 0
  | p :: ps, c => if p.1 = c then p.2 else Tally.get ps c

/-- Python `counter[c] += n`: update the entry in place (keeping its
position) when the key is present, else append a new entry. -/
def Tally.incr : Tally → Category → Nat → Tally
  | [], c, n => [(c, n)]
  | p :: ps, c, n => if p.1 = c then (p.1, p.2 + n) :: ps else p :: Tally.incr ps c n

/-- One entry of `results.boxes` as the drawing loop consumes it: the class
label the model reports for the box, and whether the per-box processing
(field extraction and `cv2` drawing, lines 145-165 of `app.py`) succeeds.
A box whose processing raises is skipped via `continue` (line 171). -/
structure Box where
  label : Category
  ok : Bool := true
deriving DecidableEq

/-- Lines 140-171: fold over `results.boxes` building `current_frame_count`;
each successfully processed box contributes one count to its label. -/
def tallyBoxes (boxes : List Box) : Tally :=
  boxes.foldl (fun t b => if b.ok then t.incr b.label 1 else t) []

/-- Lines 174-175: `for label, count in current_frame_count.items():
stats_state['total'][label] += count` — pointwise addition of the frame
tally into the running total. -/
def mergeTally (total frameTally : Tally) : Tally :=
  frameTally.foldl (fun acc p => acc.incr p.1 p.2) total

/-- Stable descending insertion by count: `x` is placed before the first
entry with a strictly smaller count, hence after every earlier entry with
an equal count. -/
def insertDesc (x : Category × Nat) : List (Category × Nat) → List (Category × Nat)
  | [] => [x]
  | y :: ys => if y.2 < x.2 then x :: y :: ys else y :: insertDesc x ys

/-- Line 264: `sorted(total_count.items(), key=lambda x: -x[1])` — a stable
sort by count descending.  A stable sort is uniquely determined by its
comparison, so this insertion sort computes the same list as Python's. -/
def sortDesc (l : List (Category × Nat)) : List (Category × Nat) :=
  l.foldl (fun acc x => insertDesc x acc) []

/-- Observable content of a successfully rendered chart (lines 230-295):
the left panel shows the current frame's tally (`none` = the "no
detections" placeholder text), the right panel shows the displayed
cumulative bars in order (`none` = the "no data" placeholder text), with
the grand total printed in its title. -/
structure ChartData where
  currentPanel : Option Tally
  cumulativePanel : Option (List (Category × Nat))
  cumulativeTotal : Option Nat
deriving DecidableEq

/-- The content drawn by the body of `generate_stats_chart`: `if
current_count:` / `if total_count:` are Python truthiness of a Counter
(nonempty), the right panel takes the top 10 of the descending stable
sort (line 264), and the title prints `sum(total_count.values())`
(line 269) — the sum over all categories. -/
def chartDataOf (current total : Tally) : ChartData :=
  { currentPanel := if current.isEmpty then none else some current
    cumulativePanel := if total.isEmpty then none else some ((sortDesc total).take 10)
    cumulativeTotal := if total.isEmpty then none else some ((total.map Prod.snd).sum) }

/-- The try-block body of `generate_stats_chart` (lines 210-297);
`bodyFail = true` models matplotlib raising anywhere inside it. -/
def chart_body (current total : Tally) (bodyFail : Bool) : Except Unit ChartData :=
  if bodyFail then .error () else .ok (chartDataOf current total)

/-- An image that `generate_stats_chart` can return: a rendered chart, or
the 300x600 white "Chart Error" placeholder built in its except branch
(lines 301-303). -/
inductive ChartImg where
  | rendered (d : ChartData)
  | placeholder
deriving DecidableEq

/-- Element count of the chart image as a NumPy array: the Agg canvas for
`figsize=(12, 4)` at the default 100 dpi, or the 300x600x3 placeholder.
Only `1 < numel` matters: NumPy truth-testing such an array raises. -/
def ChartImg.numel : ChartImg → Nat
  | .rendered _ => 1200 * 400 * 3
  | .placeholder => 300 * 600 * 3

/-- Lines 298-304: `generate_stats_chart` wraps its body in a catch-all
that returns the placeholder image, so it never raises. -/
def generate_stats_chart (current total : Tally) (bodyFail : Bool) : ChartImg :=
  match chart_body current total bodyFail with
  | .ok d => .rendered d
  | .error _ => .placeholder

/-- Python `not stats_state.get('last_chart')` (line 184): `not None` is
`True`; truth-testing a NumPy array with more than one element raises
`ValueError` ("truth value of an array ... is ambiguous").  Every chart
image stored in `last_chart` has more than one element
(`ChartImg.one_lt_numel`), so the `some` case raises. -/
def pyNotLastChart : Option ChartImg → Except Unit Bool
  | none => .ok true
  | some _ => .error ()

/-- The `stats_state` dict: `current`, `total` and `last_chart` keys
(lines 121-126); the `last_chart` key is always present, holding `None`
or a chart image, so `stats_state.get('last_chart', d)` returns the
stored value and never the default. -/
structure StatsState where
  current : Tally
  total : Tally
  last_chart : Option ChartImg
deriving DecidableEq

/-- The freshly initialized statistics dict (lines 122-126, 330-334). -/
def emptyStats : StatsState := { current := [], total := [], last_chart := none }

/-- `_chart_update_interval = 5` (line 106). -/
def chartUpdateInterval : Nat := 5

/-- A value of the annotated-frame output slot.  A camera frame is
identified by its pixel content `id`; `raw` is the input array object
itself, `roundtrip` is `cvtColor(cvtColor(frame, RGB2BGR), BGR2RGB)`
without any drawing (same pixels, fresh array), and `annotated` is the
round-trip with the surviving boxes drawn on it. -/
inductive OutImg where
  | raw (id : Nat)
  | roundtrip (id : Nat)
  | annotated (id : Nat) (labels : List Category)
deriving DecidableEq

/-- A value of the second (chart display) output slot: a chart image,
Python `None`, or — via line 118 — the `stats_state` dict itself. -/
inductive ChartOut where
  | image (c : ChartImg)
  | pyNone
  | stateDict (s : StatsState)
deriving DecidableEq

/-- The cached-chart value as a chart output (`None` stays `None`). -/
def cachedChartOut : Option ChartImg → ChartOut
  | some c => .image c
  | none => .pyNone

/-- Environment of one `yolo_detect` call: the outcome of the detector
invocation and whether matplotlib fails inside `generate_stats_chart`. -/
structure FrameEnv where
  dets : Except Unit (List Box)
  renderFail : Bool

/-- Result of one `yolo_detect` call: the three returned values, the value
of the global `_frame_counter` after the call, and a ghost flag recording
whether `generate_stats_chart` was invoked during the call. -/
structure StepOut where
  result_img : Option OutImg
  stats_chart : ChartOut
  state : Option StatsState
  ctr : Nat
  rendered : Bool
deriving DecidableEq

/-- Lines 185-195 when the chart condition held: render from
(`current_frame_count`, `stats_state['total']`), cache the result, return
the annotated frame with the fresh chart. -/
def renderAndCache (fid : Nat) (labels : List Category) (current : Tally)
    (st1 : StatsState) (ctr1 : Nat) (rf : Bool) : StepOut :=
  let chart := generate_stats_chart current st1.total rf
  { result_img := some (OutImg.annotated fid labels)
    stats_chart := ChartOut.image chart
    state := some { st1 with last_chart := some chart }
    ctr := ctr1
    rendered := true }

/-- Lines 116-195: the outer try-block of `yolo_detect`.  The state dict is
mutated in place and `_frame_counter` is a global, so when an uncaught
exception escapes the block the handler (lines 197-204) sees the already
mutated state and advanced counter: the `.error` value carries exactly
those. -/
def yolo_detect_body (frame : Option Nat) (stats0 : Option StatsState) (ctr : Nat)
    (env : FrameEnv) : Except (Option StatsState × Nat) StepOut :=
  match frame with
  | none =>
      -- lines 117-118: `return None, stats_state, stats_state` — the state
      -- dict itself is returned in the chart output slot
      .ok { result_img := none
            stats_chart := match stats0 with
              | none => ChartOut.pyNone
              | some s => ChartOut.stateDict s
            state := stats0
            ctr := ctr
            rendered := false }
  | some fid =>
      -- lines 121-126: lazy init; line 129: RGB->BGR copy
      let st := stats0.getD emptyStats
      match env.dets with
      | .error _ =>
          -- lines 132-138: detection raised; return the unannotated
          -- BGR->RGB round-trip and `stats_state.get('last_chart', frame)`,
          -- which is the stored value since the key is always present
          .ok { result_img := some (OutImg.roundtrip fid)
                stats_chart := cachedChartOut st.last_chart
                state := some st
                ctr := ctr
                rendered := false }
      | .ok boxes =>
          -- lines 140-177: tally the surviving boxes, draw them, merge into
          -- the running total, replace `current` (all in-place on the dict)
          let current := tallyBoxes boxes
          let st1 : StatsState :=
            { current := current
              total := mergeTally st.total current
              last_chart := st.last_chart }
          let labels := (boxes.filter (·.ok)).map (·.label)
          -- line 183: `_frame_counter += 1`
          let ctr1 := ctr + 1
          -- line 184: `if _frame_counter % _chart_update_interval == 0 or
          -- not stats_state.get('last_chart'):` — `or` short-circuits, and
          -- the right operand truth-tests a NumPy array when a chart is cached
          match (if ctr1 % chartUpdateInterval == 0 then Except.ok true
                 else pyNotLastChart st1.last_chart) with
          | .error _ => .error (some st1, ctr1)
          | .ok cond =>
            if cond then
              .ok (renderAndCache fid labels current st1 ctr1 env.renderFail)
            else
              -- lines 191-193: reuse the cached chart
              .ok { result_img := some (OutImg.annotated fid labels)
                    stats_chart := cachedChartOut st1.last_chart
                    state := some st1
                    ctr := ctr1
                    rendered := false }

/-- Lines 108-204, `yolo_detect`: the body wrapped in the top-level
catch-all, whose handler returns the original input frame (line 201) and
`stats_state.get('last_chart') if stats_state else None` (line 204). -/
def yolo_detect (frame : Option Nat) (stats0 : Option StatsState) (ctr : Nat)
    (env : FrameEnv) : StepOut :=
  match yolo_detect_body frame stats0 ctr env with
  | .ok out => out
  | .error (st, ctr') =>
      { result_img := frame.map OutImg.raw
        stats_chart := match st with
          | none => ChartOut.pyNone
          | some s => cachedChartOut s.last_chart
        state := st
        ctr := ctr'
        rendered := false }

/-- A sequence of streaming callbacks in one session: each call receives the
previous call's returned state (Gradio threads `stats_state` through) and
the current value of the global `_frame_counter`. -/
def runSession (frames : List (Option Nat × FrameEnv)) (stats0 : Option StatsState)
    (ctr : Nat) : List StepOut × Option StatsState × Nat :=
  match frames with
  | [] => ([], stats0, ctr)
  | (f, env) :: rest =>
      let out := yolo_detect f stats0 ctr env
      let (outs, st', ctr') := runSession rest out.state out.ctr
      (out :: outs, st', ctr')

/-- Environment of a frame whose detector call succeeds with the given boxes. -/
def okEnv (bs : List Box) (rf : Bool) : FrameEnv := { dets := .ok bs, renderFail := rf }

/-- The cumulative tally after running one session over the given per-frame
detection lists (every detector call succeeds), starting from `st0` and
global counter `ctr`. -/
def sessionTotal (dets : List (List Box)) (st0 : StatsState) (ctr : Nat)
    (rf : Bool) : Tally :=
  match (runSession (dets.map fun bs => (some 0, okEnv bs rf)) (some st0) ctr).2.1 with
  | some st => st.total
  | none => []

/-- Lines 306-320, `reset_stats`, with the outcome of its
`generate_stats_chart` call abstracted so that the except branch (lines
317-319) is modelled even though the callee's own catch-all means it
never raises in the assembled program: `.error` = the call raised, in
which case the fresh state keeps `last_chart = None` and the chart output
is `None`. -/
def reset_stats (renderOutcome : Except Unit ChartImg) : StatsState × Option ChartImg :=
  match renderOutcome with
  | .ok c => ({ current := [], total := [], last_chart := some c }, some c)
  | .error _ => ({ current := [], total := [], last_chart := none }, none)

/-- The reset operation as assembled in the program: the renderer call
returns normally (with a rendered empty chart, or its error placeholder). -/
def reset_stats_run (renderFail : Bool) : StatsState × Option ChartImg :=
  reset_stats (.ok (generate_stats_chart [] [] renderFail))

/-! ### Supporting lemmas about tallies -/

theorem Tally.get_incr (t : Tally) (c c' : Category) (n : Nat) :
    Tally.get (t.incr c n) c' = Tally.get t c' + if c' = c then n else 0 := by
  induction t with
  | nil =>
      by_cases h : c = c'
      · simp [Tally.incr, Tally.get, h]
      · simp [Tally.incr, Tally.get, h, show ¬ c' = c from fun hh => h hh.symm]
  | cons p ps ih =>
      by_cases hpc : p.1 = c
      · by_cases hpc' : p.1 = c'
        · simp [Tally.incr, Tally.get, hpc, hpc', show c' = c from hpc' ▸ hpc]
        · simp [Tally.incr, Tally.get, hpc, hpc',
            show ¬ c' = c from fun hh => hpc' (hpc.trans hh.symm),
            show ¬ c = c' from hpc ▸ hpc']
      · by_cases hpc' : p.1 = c'
        · simp [Tally.incr, Tally.get, hpc, hpc',
            show ¬ c' = c from fun hh => hpc (hpc'.trans hh)]
        · simp [Tally.incr, Tally.get, hpc, hpc', ih]

theorem Tally.get_eq_zero_of_not_mem (t : Tally) (c : Category)
    (h : c ∉ t.map Prod.fst) : Tally.get t c = 0 := by
  induction t with
  | nil => rfl
  | cons p ps ih =>
      simp only [List.map_cons, List.mem_cons, not_or] at h
      have hne : ¬ p.1 = c := fun hh => h.1 hh.symm
      simp [Tally.get, hne, ih h.2]

theorem Tally.keys_incr (t : Tally) (c : Category) (n : Nat) :
    (t.incr c n).map Prod.fst =
      if c ∈ t.map Prod.fst then t.map Prod.fst else t.map Prod.fst ++ [c] := by
  induction t with
  | nil => simp [Tally.incr]
  | cons p ps ih =>
      by_cases hpc : p.1 = c
      · simp [Tally.incr, hpc]
      · have : ¬ c = p.1 := fun h => hpc h.symm
        by_cases hmem : c ∈ ps.map Prod.fst <;>
          simp [Tally.incr, hpc, this, hmem, ih]

theorem Tally.nodup_keys_incr (t : Tally) (c : Category) (n : Nat)
    (h : (t.map Prod.fst).Nodup) : ((t.incr c n).map Prod.fst).Nodup := by
  rw [Tally.keys_incr]
  split
  · exact h
  · exact List.Nodup.append h (List.nodup_singleton c)
      (by simpa [List.disjoint_singleton] using ‹c ∉ t.map Prod.fst›)

theorem tallyBoxes_keys_nodup (bs : List Box) :
    ((tallyBoxes bs).map Prod.fst).Nodup := by
  suffices h : ∀ t : Tally, (t.map Prod.fst).Nodup →
      (((bs.foldl (fun t b => if b.ok then t.incr b.label 1 else t) t)).map
        Prod.fst).Nodup from h [] (by simp)
  induction bs with
  | nil => intro t ht; simpa using ht
  | cons b rest ih =>
      intro t ht
      by_cases hb : b.ok
      · simpa [hb] using ih _ (Tally.nodup_keys_incr t b.label 1 ht)
      · simpa [hb] using ih t ht

theorem Tally.get_mergeTally (f : Tally) (hf : (f.map Prod.fst).Nodup) :
    ∀ (t : Tally) (c : Category),
      Tally.get (mergeTally t f) c = Tally.get t c + Tally.get f c := by
  induction f with
  | nil => intro t c; simp [mergeTally, Tally.get]
  | cons p ps ih =>
      intro t c
      simp only [List.map_cons, List.nodup_cons] at hf
      have hrec : mergeTally t (p :: ps) = mergeTally (t.incr p.1 p.2) ps := rfl
      rw [hrec, ih hf.2, Tally.get_incr]
      by_cases hc : c = p.1
      · subst hc
        have hzero : Tally.get ps p.1 = 0 :=
          Tally.get_eq_zero_of_not_mem ps p.1 hf.1
        simp [Tally.get, hzero]
      · have hne : ¬ p.1 = c := fun hh => hc hh.symm
        simp [Tally.get, hc, hne]

/-! ### Per-step and per-session behaviour of `yolo_detect` -/

theorem yolo_detect_ok_state (fid : Nat) (st : StatsState) (ctr : Nat)
    (env : FrameEnv) (bs : List Box) (h : env.dets = .ok bs) :
    ∃ lc : Option ChartImg,
      (yolo_detect (some fid) (some st) ctr env).state =
        some { current := tallyBoxes bs
               total := mergeTally st.total (tallyBoxes bs)
               last_chart := lc } ∧
      (yolo_detect (some fid) (some st) ctr env).ctr = ctr + 1 := by
  cases hmod : ((ctr + 1) % chartUpdateInterval == 0) with
  | true =>
      exact ⟨some (generate_stats_chart (tallyBoxes bs)
          (mergeTally st.total (tallyBoxes bs)) env.renderFail),
        by simp [yolo_detect, yolo_detect_body, renderAndCache, h, hmod],
        by simp [yolo_detect, yolo_detect_body, renderAndCache, h, hmod]⟩
  | false =>
      cases hlc : st.last_chart with
      | none =>
          exact ⟨some (generate_stats_chart (tallyBoxes bs)
              (mergeTally st.total (tallyBoxes bs)) env.renderFail),
            by simp [yolo_detect, yolo_detect_body, renderAndCache,
              pyNotLastChart, h, hmod, hlc],
            by simp [yolo_detect, yolo_detect_body, renderAndCache,
              pyNotLastChart, h, hmod, hlc]⟩
      | some c =>
          exact ⟨some c,
            by simp [yolo_detect, yolo_detect_body, pyNotLastChart, h, hmod, hlc],
            by simp [yolo_detect, yolo_detect_body, pyNotLastChart, h, hmod, hlc]⟩

theorem runSession_ok_total (dets : List (List Box)) :
    ∀ (st : StatsState) (ctr : Nat) (rf : Bool),
      ∃ (st' : StatsState) (ctr' : Nat) (outs : List StepOut),
        runSession (dets.map fun bs => (some 0, okEnv bs rf)) (some st) ctr =
          (outs, some st', ctr') ∧
        ∀ c : Category, Tally.get st'.total c =
          Tally.get st.total c + (dets.map fun bs => Tally.get (tallyBoxes bs) c).sum := by
  induction dets with
  | nil => exact fun st ctr rf => ⟨st, ctr, [], rfl, by simp⟩
  | cons bs rest ih =>
      intro st ctr rf
      obtain ⟨lc, hstate, hctr⟩ := yolo_detect_ok_state 0 st ctr (okEnv bs rf) bs rfl
      obtain ⟨st', ctr', outs, hrun, htot⟩ :=
        ih ⟨tallyBoxes bs, mergeTally st.total (tallyBoxes bs), lc⟩ (ctr + 1) rf
      refine ⟨st', ctr', yolo_detect (some 0) (some st) ctr (okEnv bs rf) :: outs, ?_, ?_⟩
      · simp only [List.map_cons, runSession, hstate, hctr, hrun]
      · intro c
        rw [htot c]
        simp [Tally.get_mergeTally (tallyBoxes bs) (tallyBoxes_keys_nodup bs),
          Nat.add_assoc]

/-! ### Supporting lemmas about the descending stable sort -/

theorem insertDesc_perm (x : Category × Nat) (l : List (Category × Nat)) :
    (insertDesc x l).Perm (x :: l) := by
  induction l with
  | nil => simp [insertDesc]
  | cons y ys ih =>
      by_cases h : y.2 < x.2
      · simp [insertDesc, h]
      · simp only [insertDesc, if_neg h]
        exact (ih.cons y).trans (List.Perm.swap x y ys)

theorem sortDesc_perm (l : List (Category × Nat)) : (sortDesc l).Perm l := by
  suffices h : ∀ acc : List (Category × Nat),
      (l.foldl (fun acc x => insertDesc x acc) acc).Perm (acc ++ l) by
    simpa [sortDesc] using h []
  induction l with
  | nil => intro acc; simp
  | cons x xs ih =>
      intro acc
      simp only [List.foldl_cons]
      refine (ih (insertDesc x acc)).trans ?_
      refine (List.Perm.append_right xs (insertDesc_perm x acc)).trans ?_
      simpa using (@List.perm_middle _ x acc xs).symm

theorem insertDesc_sorted (x : Category × Nat) {l : List (Category × Nat)}
    (h : List.Sorted (fun a b : Category × Nat => b.2 ≤ a.2) l) :
    List.Sorted (fun a b : Category × Nat => b.2 ≤ a.2) (insertDesc x l) := by
  induction l with
  | nil => simp [insertDesc]
  | cons y ys ih =>
      rw [List.sorted_cons] at h
      by_cases hlt : y.2 < x.2
      · simp only [insertDesc, if_pos hlt]
        refine List.sorted_cons.mpr ⟨?_, List.sorted_cons.mpr h⟩
        intro b hb
        rcases List.mem_cons.mp hb with rfl | hb'
        · exact Nat.le_of_lt hlt
        · exact Nat.le_trans (h.1 b hb') (Nat.le_of_lt hlt)
      · simp only [insertDesc, if_neg hlt]
        refine List.sorted_cons.mpr ⟨?_, ih h.2⟩
        intro b hb
        rcases List.mem_cons.mp ((insertDesc_perm x ys).mem_iff.mp hb) with rfl | hb'
        · exact Nat.le_of_not_lt hlt
        · exact h.1 b hb'

theorem sortDesc_sorted (l : List (Category × Nat)) :
    List.Sorted (fun a b : Category × Nat => b.2 ≤ a.2) (sortDesc l) := by
  suffices h : ∀ acc : List (Category × Nat),
      List.Sorted (fun a b : Category × Nat => b.2 ≤ a.2) acc →
      List.Sorted (fun a b : Category × Nat => b.2 ≤ a.2)
        (l.foldl (fun acc x => insertDesc x acc) acc) from h [] (by simp)
  induction l with
  | nil => exact fun acc hacc => hacc
  | cons x xs ih =>
      intro acc hacc
      simp only [List.foldl_cons]
      exact ih (insertDesc x acc) (insertDesc_sorted x hacc)

/-- Every chart image the program stores has more than one element as a NumPy
array, which is what makes its Python truth test raise. -/
theorem ChartImg.one_lt_numel (c : ChartImg) : 1 < c.numel := by
  cases c <;> norm_num [ChartImg.numel]

/-! ### Shared cadence lemmas for the success path of `yolo_detect` -/

theorem yolo_detect_rendered_iff (fid : Nat) (st : StatsState) (ctr : Nat)
    (env : FrameEnv) (bs : List Box) (h : env.dets = .ok bs) :
    (yolo_detect (some fid) (some st) ctr env).rendered = true ↔
      ((ctr + 1) % chartUpdateInterval = 0 ∨ st.last_chart = none) := by
  cases hmod : ((ctr + 1) % chartUpdateInterval == 0) with
  | true =>
      have hm : (ctr + 1) % chartUpdateInterval = 0 := by simpa using hmod
      simp [yolo_detect, yolo_detect_body, renderAndCache, h, hmod, hm]
  | false =>
      have hm : ¬ (ctr + 1) % chartUpdateInterval = 0 := by simpa using hmod
      cases hlc : st.last_chart with
      | none =>
          simp [yolo_detect, yolo_detect_body, renderAndCache, pyNotLastChart,
            h, hmod, hm, hlc]
      | some c =>
          simp [yolo_detect, yolo_detect_body, pyNotLastChart, h, hmod, hm, hlc]

theorem yolo_detect_cached_branch (fid : Nat) (st : StatsState) (ctr : Nat)
    (env : FrameEnv) (bs : List Box) (c : ChartImg) (h : env.dets = .ok bs)
    (hc : st.last_chart = some c) (hm : (ctr + 1) % chartUpdateInterval ≠ 0) :
    (yolo_detect_body (some fid) (some st) ctr env).isOk = false
    ∧ yolo_detect (some fid) (some st) ctr env =
        { result_img := some (OutImg.raw fid)
          stats_chart := ChartOut.image c
          state := some { current := tallyBoxes bs
                          total := mergeTally st.total (tallyBoxes bs)
                          last_chart := some c }
          ctr := ctr + 1
          rendered := false } := by
  have hmod : ((ctr + 1) % chartUpdateInterval == 0) = false := by simpa using hm
  constructor
  · simp [yolo_detect_body, pyNotLastChart, h, hmod, hc, Except.isOk, Except.toBool]
  · simp [yolo_detect, yolo_detect_body, pyNotLastChart, cachedChartOut,
      h, hmod, hc]

theorem sessionTotal_get (dets : List (List Box)) (st0 : StatsState) (ctr : Nat)
    (rf : Bool) (c : Category) :
    Tally.get (sessionTotal dets st0 ctr rf) c =
      Tally.get st0.total c + (dets.map fun bs => Tally.get (tallyBoxes bs) c).sum := by
  obtain ⟨st', ctr', outs, hrun, htot⟩ := runSession_ok_total dets st0 ctr rf
  simp [sessionTotal, hrun, htot c]

/-! ### Concrete scenarios used by the claim theorems -/

/-- A frame whose detector call finds exactly one "dog" box. -/
def dogFrame : Option Nat × FrameEnv := (some 0, okEnv [{ label := "dog" }] false)

/-- Eleven consecutive one-dog frames fed to a fresh session with the global
frame counter at its initial value 0. -/
def c5run : List StepOut × Option StatsState × Nat :=
  runSession (List.replicate 11 dogFrame) (some emptyStats) 0

/-- A session state with a cached chart, used at the absent-frame input. -/
def c3state : StatsState :=
  { current := [("dog", 1)], total := [("dog", 3)], last_chart := some ChartImg.placeholder }

/-- First call of session A: fresh state, global counter 0. -/
def sessionA_first : StepOut :=
  yolo_detect (some 0) (some emptyStats) 0 dogFrame.2

/-- Second call of session A when A runs alone. -/
def sessionA_second_alone : StepOut :=
  yolo_detect (some 0) sessionA_first.state sessionA_first.ctr dogFrame.2

/-- Three frames of an independent session B, run between A's two calls; B has
its own state but shares the module-global frame counter. -/
def sessionB_run : List StepOut × Option StatsState × Nat :=
  runSession (List.replicate 3 dogFrame) (some emptyStats) sessionA_first.ctr

/-- Second call of session A when B's frames were interleaved before it: same
frame, same session state, but the shared global counter has advanced. -/
def sessionA_second_interleaved : StepOut :=
  yolo_detect (some 0) sessionA_first.state sessionB_run.2.2 dogFrame.2

/-! ### Claim theorems -/

/-- C1: after any number of successful detection passes the cumulative tally
equals, per category, the prior total plus the pointwise sum of the per-frame
tallies (each processed detection contributing exactly one count to its
category); merging frame tally {person: 2, car: 1} into prior cumulative
{person: 5} yields {person: 7, car: 1}; and the per-category result is
independent of the order in which the frames arrive. -/
theorem C1_cumulative_pointwise_sum :
    (∀ (dets : List (List Box)) (st0 : StatsState) (ctr : Nat) (rf : Bool)
        (c : Category),
      Tally.get (sessionTotal dets st0 ctr rf) c =
        Tally.get st0.total c +
          (dets.map fun bs => Tally.get (tallyBoxes bs) c).sum)
    ∧ mergeTally [("person", 5)] [("person", 2), ("car", 1)] =
        [("person", 7), ("car", 1)]
    ∧ (∀ (dets₁ dets₂ : List (List Box)) (st0 : StatsState) (ctr₁ ctr₂ : Nat)
        (rf₁ rf₂ : Bool) (c : Category), dets₁.Perm dets₂ →
        Tally.get (sessionTotal dets₁ st0 ctr₁ rf₁) c =
          Tally.get (sessionTotal dets₂ st0 ctr₂ rf₂) c) := by
  refine ⟨sessionTotal_get, by decide, ?_⟩
  intro dets₁ dets₂ st0 ctr₁ ctr₂ rf₁ rf₂ c hperm
  rw [sessionTotal_get, sessionTotal_get, (hperm.map _).sum_eq]

/-- Witness for C1: the order-independence conjunct applied to two concrete
two-frame sessions that are permutations of each other. -/
theorem C1_cumulative_pointwise_sum_witness :
    Tally.get (sessionTotal [[{ label := "dog" }], [{ label := "cat" }]]
      emptyStats 0 false) "dog" =
    Tally.get (sessionTotal [[{ label := "cat" }], [{ label := "dog" }]]
      emptyStats 3 true) "dog" :=
  C1_cumulative_pointwise_sum.2.2 _ _ emptyStats 0 3 false true "dog"
    (List.Perm.swap _ _ _)

/-- C2: on every successfully detected frame a chart render is attempted
exactly when the advanced global counter is a multiple of the update interval
or no chart is cached in the state; on every other such frame no render
happens and the previously cached chart object itself is the returned chart
output. -/
theorem C2_chart_render_cadence (fid : Nat) (st : StatsState) (ctr : Nat)
    (env : FrameEnv) (bs : List Box) (h : env.dets = .ok bs) :
    ((yolo_detect (some fid) (some st) ctr env).rendered = true ↔
      ((ctr + 1) % chartUpdateInterval = 0 ∨ st.last_chart = none))
    ∧ (∀ c : ChartImg, st.last_chart = some c →
        (ctr + 1) % chartUpdateInterval ≠ 0 →
        (yolo_detect (some fid) (some st) ctr env).stats_chart = ChartOut.image c
        ∧ (yolo_detect (some fid) (some st) ctr env).rendered = false) := by
  refine ⟨yolo_detect_rendered_iff fid st ctr env bs h, ?_⟩
  intro c hc hm
  have hb := (yolo_detect_cached_branch fid st ctr env bs c h hc hm).2
  rw [hb]
  exact ⟨rfl, rfl⟩

/-- Witness for C2 at a concrete input (counter 0, empty fresh state, no
boxes): the detection hypothesis holds by rfl. -/
theorem C2_chart_render_cadence_witness :
    ((yolo_detect (some 0) (some emptyStats) 0 (okEnv [] false)).rendered = true ↔
      ((0 + 1) % chartUpdateInterval = 0 ∨ emptyStats.last_chart = none)) :=
  (C2_chart_render_cadence 0 emptyStats 0 (okEnv [] false) [] rfl).1

/-- C3: evaluating `yolo_detect` at an absent frame shows that the call never
fails, advances no counter and leaves the state unchanged, but the value
returned in the chart output slot is the `stats_state` dict itself (line 118
`return None, stats_state, stats_state`), not the state's cached chart. -/
theorem C3_absent_frame_returns_state_dict :
    yolo_detect none (some c3state) 7 (okEnv [] false) =
      { result_img := none
        stats_chart := ChartOut.stateDict c3state
        state := some c3state
        ctr := 7
        rendered := false }
    ∧ ChartOut.stateDict c3state ≠ ChartOut.image ChartImg.placeholder :=
  ⟨rfl, by decide⟩

/-- C4: when the detector invocation raises, `yolo_detect` returns normally
(the inner handler absorbs the exception), yielding the unannotated
colour-round-tripped frame and the cached chart, with the session state —
its cumulative tally included — and the global counter untouched. -/
theorem C4_detection_failure_isolated (fid : Nat) (st : StatsState) (ctr : Nat)
    (env : FrameEnv) (h : env.dets = .error ()) :
    (yolo_detect_body (some fid) (some st) ctr env).isOk = true
    ∧ yolo_detect (some fid) (some st) ctr env =
        { result_img := some (OutImg.roundtrip fid)
          stats_chart := cachedChartOut st.last_chart
          state := some st
          ctr := ctr
          rendered := false } := by
  constructor
  · simp [yolo_detect_body, h, Except.isOk, Except.toBool]
  · simp [yolo_detect, yolo_detect_body, h]

/-- Witness for C4: a concrete failing detector call. -/
theorem C4_detection_failure_isolated_witness :
    yolo_detect (some 3) (some c3state) 9 ⟨.error (), false⟩ =
      { result_img := some (OutImg.roundtrip 3)
        stats_chart := cachedChartOut c3state.last_chart
        state := some c3state
        ctr := 9
        rendered := false } :=
  (C4_detection_failure_isolated 3 c3state 9 ⟨.error (), false⟩ rfl).2

/-- C5: feeding 11 consecutive identical one-dog frames to a fresh session
with interval 5 invokes the chart renderer exactly 3 times — on frames 1
(forced: no cached chart), 5 and 10 — and leaves the cumulative tally at
{dog: 11}. -/
theorem C5_eleven_dog_frames :
    (c5run.1.map StepOut.rendered) =
      [true, false, false, false, true, false, false, false, false, true, false]
    ∧ (c5run.1.countP (fun o => o.rendered)) = 3
    ∧ (c5run.2.1.map StatsState.total) = some [("dog", 11)] :=
  ⟨by decide, by decide, by decide⟩

/-- C6: for a cumulative tally with more than 10 categories the rendered
cumulative panel shows exactly 10 bars, sorted by count descending (the
deterministic stable order of the sort), every displayed count at least as
large as every omitted one, displayed and omitted bars together being exactly
the tally's entries; and the panel title's grand total is the sum of counts
over all categories, not only the displayed ones. -/
theorem C6_cumulative_top10 (cur t : Tally) (h : 10 < t.length) :
    ∃ shown rest : List (Category × Nat),
      (chartDataOf cur t).cumulativePanel = some shown
      ∧ shown.length = 10
      ∧ List.Sorted (fun a b : Category × Nat => b.2 ≤ a.2) shown
      ∧ (shown ++ rest).Perm t
      ∧ (∀ a ∈ shown, ∀ b ∈ rest, b.2 ≤ a.2)
      ∧ (chartDataOf cur t).cumulativeTotal = some ((t.map Prod.snd).sum) := by
  have hne : t.isEmpty = false := by
    cases t with
    | nil => simp at h
    | cons p ps => rfl
  refine ⟨(sortDesc t).take 10, (sortDesc t).drop 10, ?_, ?_, ?_, ?_, ?_, ?_⟩
  · simp [chartDataOf, hne]
  · rw [List.length_take, (sortDesc_perm t).length_eq]
    exact Nat.min_eq_left (Nat.le_of_lt h)
  · exact List.Pairwise.sublist (List.take_sublist _ _) (sortDesc_sorted t)
  · rw [List.take_append_drop]
    exact sortDesc_perm t
  · have hs := sortDesc_sorted t
    rw [← List.take_append_drop 10 (sortDesc t)] at hs
    exact (List.pairwise_append.mp hs).2.2
  · simp [chartDataOf, hne]

/-- A concrete cumulative tally with 12 categories (with ties). -/
def t12 : Tally :=
  [("person", 4), ("car", 9), ("dog", 2), ("cat", 9), ("bus", 1), ("bird", 7),
   ("truck", 3), ("bike", 5), ("horse", 2), ("sheep", 8), ("cow", 6), ("boat", 2)]

/-- Witness for C6 at the concrete 12-category tally. -/
theorem C6_cumulative_top10_witness :
    10 < t12.length
    ∧ ∃ shown rest : List (Category × Nat),
        (chartDataOf [] t12).cumulativePanel = some shown
        ∧ shown.length = 10
        ∧ List.Sorted (fun a b : Category × Nat => b.2 ≤ a.2) shown
        ∧ (shown ++ rest).Perm t12
        ∧ (∀ a ∈ shown, ∀ b ∈ rest, b.2 ≤ a.2)
        ∧ (chartDataOf [] t12).cumulativeTotal = some ((t12.map Prod.snd).sum) :=
  ⟨by decide, C6_cumulative_top10 [] t12 (by decide)⟩

/-- C7: whatever the outcome of the chart render call, `reset_stats` returns a
state with empty current and cumulative tallies; and if the render call
raises, it still returns that fresh empty state, with an absent chart,
instead of failing. -/
theorem C7_reset_always_empty (outcome : Except Unit ChartImg) :
    (reset_stats outcome).1.current = []
    ∧ (reset_stats outcome).1.total = []
    ∧ (outcome = .error () →
        reset_stats outcome =
          ({ current := [], total := [], last_chart := none }, none)) := by
  cases outcome <;> simp [reset_stats]

/-- Witness for C7: the failure-isolation conjunct at the raising outcome. -/
theorem C7_reset_always_empty_witness :
    reset_stats (.error ()) =
      ({ current := [], total := [], last_chart := none }, none) :=
  (C7_reset_always_empty (.error ())).2.2 rfl

/-- C8: `generate_stats_chart` is a total function of its inputs — every
caller receives an image: the rendered chart when its body succeeds, and the
"Chart Error" placeholder whenever anything raised inside the body. -/
theorem C8_renderer_never_propagates (cur tot : Tally) (bodyFail : Bool) :
    (chart_body cur tot bodyFail = .error () →
      generate_stats_chart cur tot bodyFail = ChartImg.placeholder)
    ∧ (generate_stats_chart cur tot bodyFail = ChartImg.placeholder ∨
        generate_stats_chart cur tot bodyFail =
          ChartImg.rendered (chartDataOf cur tot)) := by
  cases bodyFail <;> simp [chart_body, generate_stats_chart]

/-- Witness for C8: a concrete failing render body. -/
theorem C8_renderer_never_propagates_witness :
    generate_stats_chart [] [] true = ChartImg.placeholder :=
  (C8_renderer_never_propagates [] [] true).1 rfl

/-- C9 counterexample: the frame counter is the module-global
`_frame_counter`, shared across sessions.  Session A's second call — same
frame, same session state — produces a different annotated frame (and a
different result altogether) when three frames of an independent session B
ran in between, refuting that the chart cadence is a function of the
session's own state and frame sequence alone. -/
theorem C9_counterexample :
    sessionA_second_interleaved.result_img ≠ sessionA_second_alone.result_img
    ∧ sessionA_second_interleaved ≠ sessionA_second_alone :=
  ⟨by decide, by decide⟩

/-- C9 amended: the frame counter is the module-level global
`_frame_counter`, not a SessionState field; every successful-detection call
advances the shared global by one regardless of session, and the
chart-render cadence is a function of that global counter together with the
session's cached chart. -/
theorem C9_global_counter_cadence (fid : Nat) (st : StatsState) (ctr : Nat)
    (env : FrameEnv) (bs : List Box) (h : env.dets = .ok bs) :
    (yolo_detect (some fid) (some st) ctr env).ctr = ctr + 1
    ∧ ((yolo_detect (some fid) (some st) ctr env).rendered = true ↔
        ((ctr + 1) % chartUpdateInterval = 0 ∨ st.last_chart = none)) := by
  obtain ⟨lc, hstate, hctr⟩ := yolo_detect_ok_state fid st ctr env bs h
  exact ⟨hctr, yolo_detect_rendered_iff fid st ctr env bs h⟩

/-- Witness for C9's amended statement at a concrete input. -/
theorem C9_global_counter_cadence_witness :
    (yolo_detect (some 5) (some c3state) 4 (okEnv [] false)).ctr = 4 + 1
    ∧ ((yolo_detect (some 5) (some c3state) 4 (okEnv [] false)).rendered = true ↔
        ((4 + 1) % chartUpdateInterval = 0 ∨ c3state.last_chart = none)) :=
  C9_global_counter_cadence 5 c3state 4 (okEnv [] false) [] rfl

/-- C10: on a successfully detected frame with a chart already cached and the
advanced global counter not a multiple of the interval, the Python truth
test of the cached NumPy chart (which has more than one element) raises
inside the body, the top-level handler absorbs it, and the call returns the
original input frame without annotations together with the cached chart,
keeping the tally updates already applied to the state. -/
theorem C10_truthiness_failure_path (fid : Nat) (st : StatsState) (ctr : Nat)
    (env : FrameEnv) (bs : List Box) (c : ChartImg) (h : env.dets = .ok bs)
    (hc : st.last_chart = some c) (hm : (ctr + 1) % chartUpdateInterval ≠ 0) :
    1 < c.numel
    ∧ (yolo_detect_body (some fid) (some st) ctr env).isOk = false
    ∧ yolo_detect (some fid) (some st) ctr env =
        { result_img := some (OutImg.raw fid)
          stats_chart := ChartOut.image c
          state := some { current := tallyBoxes bs
                          total := mergeTally st.total (tallyBoxes bs)
                          last_chart := some c }
          ctr := ctr + 1
          rendered := false } :=
  ⟨c.one_lt_numel,
   (yolo_detect_cached_branch fid st ctr env bs c h hc hm).1,
   (yolo_detect_cached_branch fid st ctr env bs c h hc hm).2⟩

/-- Witness for C10: a concrete frame with a cached placeholder chart and
global counter 0 (so the advanced counter 1 is not a multiple of 5). -/
theorem C10_truthiness_failure_path_witness :
    1 < ChartImg.placeholder.numel
    ∧ (yolo_detect_body (some 42) (some c3state) 0
        (okEnv [{ label := "dog" }] false)).isOk = false
    ∧ yolo_detect (some 42) (some c3state) 0 (okEnv [{ label := "dog" }] false) =
        { result_img := some (OutImg.raw 42)
          stats_chart := ChartOut.image ChartImg.placeholder
          state := some { current := tallyBoxes [{ label := "dog" }]
                          total := mergeTally c3state.total
                            (tallyBoxes [{ label := "dog" }])
                          last_chart := some ChartImg.placeholder }
          ctr := 0 + 1
          rendered := false } :=
  C10_truthiness_failure_path 42 c3state 0 (okEnv [{ label := "dog" }] false)
    [{ label := "dog" }] ChartImg.placeholder rfl rfl (by decide)

end YoloApp
